import Mathlib

/-!
Shallow embedding of `src/include/wasm/RootResolver.h`: the `RootResolver`
struct (toolchain classification, memory/table limit rewriting, intrinsic
module instantiation, mutable-globals patching, import resolution and
cleanup), together with the constants it uses.

Modelling conventions:
  * C++ `int` / `U64` values are `Nat` (all constants fit comfortably; the
    one narrowing store, the `U32` assignment to `DYNAMICTOP_PTR`, carries
    an explicit `% 2 ^ 32`).
  * The WAVM runtime objects the resolver touches are abstracted to just
    what the resolver observes: an object carries its runtime extern type;
    a module instance is an export map from names to objects;
    `Runtime::getInstanceExport` is association-list lookup;
    `Runtime::isA` (WAVM's external subtype check) is a parameter of
    `resolve`.
  * A `Runtime::GCPointer` that may be null is `Option ModInst`; calling
    `getInstanceExport` through a null pointer is undefined behaviour in
    the C++ and is modelled as `none` at the `Option (Option Obj)` level.
  * `std::vector::operator[]` on an index past the end is undefined
    behaviour; functions performing such an access return `none`
    (`setUpStandardToolchain`, `setUpEmscripten`).
  * The compartment records the memories and tables created in it via
    `Runtime::createMemory` / `Runtime::createTable` (name and type).
  * The raw `MutableGlobals` store through `Runtime::memoryRef` is recorded
    as a list of (byte offset, value) writes into the created memory,
    using the struct's C++ layout (U32 at 0, F64 at 8, three I32 at
    16/20/24, sizeof = 32 under 8-byte alignment).
-/

namespace RootResolverModel

/-- IR::numBytesPerPage: wasm page size in bytes (64 KiB). -/
def numBytesPerPage : Nat := 65536

def ONE_MB_PAGES : Nat := 16

def ONE_GB_PAGES : Nat := 1024 * ONE_MB_PAGES

def INITIAL_MEMORY_PAGES : Nat := 15 * ONE_MB_PAGES

def MAX_MEMORY_PAGES : Nat := ONE_GB_PAGES

def EMSCRIPTEN_MIN_TABLE_ELEMS : Nat := 40000000

def EMSCRIPTEN_MAX_TABLE_ELEMS : Nat := 60000000

def INITIAL_EMSCRIPTEN_PAGES : Nat := 1024 * ONE_MB_PAGES

def MAX_EMSCRIPTEN_PAGES : Nat := 2048 * ONE_GB_PAGES

def EMSCRIPTEN_STACKTOP : Nat := 64 * numBytesPerPage

def EMSCRIPTEN_STACK_MAX : Nat := 256 * numBytesPerPage

/-- ioStreamVMHandle::StdErr. -/
def ioStreamVMHandleStdErr : Nat := 1

/-- ioStreamVMHandle::StdIn. -/
def ioStreamVMHandleStdIn : Nat := 2

/-- ioStreamVMHandle::StdOut. -/
def ioStreamVMHandleStdOut : Nat := 3

namespace MutableGlobals

/-- MutableGlobals::address = 63 * IR::numBytesPerPage. -/
def address : Nat := 63 * numBytesPerPage

/-- Byte offset of the `DYNAMICTOP_PTR` field (U32 at the start). -/
def offsetDynamictopPtr : Nat := 0

/-- Byte offset of the stderr handle field (after U32 + padding + F64). -/
def offsetStderr : Nat := 16

/-- Byte offset of the stdin handle field. -/
def offsetStdin : Nat := 20

/-- Byte offset of the stdout handle field. -/
def offsetStdout : Nat := 24

/-- sizeof(MutableGlobals) under the C++ layout (8-byte aligned). -/
def byteSize : Nat := 32

end MutableGlobals

/-- IR::SizeConstraints: min/max limits (in pages for memories, element
counts for tables). -/
structure SizeConstraints where
  min : Nat
  max : Nat
deriving DecidableEq

/-- IR::MemoryType restricted to the field the resolver touches. -/
structure MemoryType where
  size : SizeConstraints
deriving DecidableEq

/-- IR::TableType restricted to the field the resolver touches. -/
structure TableType where
  size : SizeConstraints
deriving DecidableEq

/-- An entry of module.memories.defs. -/
structure MemoryDef where
  type : MemoryType
deriving DecidableEq

/-- An entry of module.memories.imports. -/
structure MemoryImport where
  type : MemoryType
deriving DecidableEq

/-- An entry of module.tables.imports. -/
structure TableImport where
  type : TableType
deriving DecidableEq

/-- module.memories: owned definitions and imports. -/
structure ModuleMemories where
  defs : List MemoryDef
  imports : List MemoryImport
deriving DecidableEq

/-- module.tables (only the imports are accessed by the resolver). -/
structure ModuleTables where
  imports : List TableImport
deriving DecidableEq

/-- IR::Module restricted to the sections the resolver reads or mutates. -/
structure IRModule where
  memories : ModuleMemories
  tables : ModuleTables
deriving DecidableEq

/-- IR::ExternType: the declared/runtime type of an importable object. -/
inductive ExternType where
  | func (sig : Nat)
  | glob (code : Nat)
  | mem (size : SizeConstraints)
  | tab (size : SizeConstraints)
deriving DecidableEq

/-- A WAVM runtime object, abstracted to the runtime type the resolver can
observe through `getObjectType`. -/
structure Obj where
  type : ExternType
deriving DecidableEq

/-- A Runtime::ModuleInstance abstracted to its export map. -/
abbrev ModInst := List (String × Obj)

/-- Runtime::getInstanceExport: look an export up by name. -/
def getInstanceExport (inst : ModInst) (name : String) : Option Obj :=
  List.lookup name inst

/-- getInstanceExport through a possibly-null GCPointer: the null case is
undefined behaviour in the C++ and is modelled as `none`. -/
def getInstanceExportP (inst : Option ModInst) (name : String) :
    Option (Option Obj) :=
  match inst with
  | none => none
  | some i => some (getInstanceExport i name)

/-- The compartment, abstracted to the memories and tables created in it
(Runtime::createMemory / Runtime::createTable record name and type). -/
structure Compartment where
  memories : List (String × MemoryType)
  tables : List (String × TableType)
deriving DecidableEq

/-- Runtime::createMemory: creates a memory object in the compartment with
the given type and debug name. -/
def createMemory (comp : Compartment) (t : MemoryType) (name : String) :
    Obj × Compartment :=
  (⟨ExternType.mem t.size⟩, { comp with memories := comp.memories ++ [(name, t)] })

/-- Runtime::createTable: creates a table object in the compartment with
the given type and debug name. -/
def createTable (comp : Compartment) (t : TableType) (name : String) :
    Obj × Compartment :=
  (⟨ExternType.tab t.size⟩, { comp with tables := comp.tables ++ [(name, t)] })

/-- Intrinsics::instantiateModule, abstracted: the instance exports the
intrinsic collection's symbols plus the extra injected exports (which take
precedence on lookup). -/
def instantiateModule (collection : ModInst) (extraExports : ModInst) : ModInst :=
  extraExports ++ collection

/-- The RootResolver's fields: the toolchain flag, the four GCPointers to
instantiated intrinsic modules, and the user string. -/
structure ResolverState where
  isEmscripten : Bool
  envModule : Option ModInst
  emEnvModule : Option ModInst
  emAsm2wasmModule : Option ModInst
  emGlobalModule : Option ModInst
  user : String
deriving DecidableEq

/-- The state after `RootResolver(compartment)`: the constructor body is
empty, so fields hold their initializers (isEmscripten = false, null
GCPointers, empty user string). -/
def initialState : ResolverState :=
  { isEmscripten := false, envModule := none, emEnvModule := none,
    emAsm2wasmModule := none, emGlobalModule := none, user := "" }

/-- RootResolver::setUser. -/
def setUser (st : ResolverState) (userIn : String) : ResolverState :=
  { st with user := userIn }

/-- RootResolver::cleanUp: null out the four module-instance pointers. -/
def cleanUp (st : ResolverState) : ResolverState :=
  { st with envModule := none, emEnvModule := none,
            emAsm2wasmModule := none, emGlobalModule := none }

/-- Everything `setUp` produces or mutates: the resolver state, the
compartment, the module (whose declared limits were rewritten in place),
and the raw writes performed into the created linear memory. -/
structure SetUpResult where
  st : ResolverState
  comp : Compartment
  m : IRModule
  memWrites : List (Nat × Nat)
deriving DecidableEq

/-- RootResolver::setUpStandardToolchain. `envCollection` is the external
intrinsic collection returned by getIntrinsicModule_env(). The unguarded
`module.memories.defs[0]` access is undefined behaviour when `defs` is
empty, modelled as `none`. -/
def setUpStandardToolchain (envCollection : ModInst) (st : ResolverState)
    (comp : Compartment) (m : IRModule) : Option SetUpResult :=
  match m.memories.defs with
  | [] => none
  | d :: rest =>
    let d2 : MemoryDef :=
      { d with type := { d.type with size :=
          { min := INITIAL_MEMORY_PAGES, max := MAX_MEMORY_PAGES } } }
    let m2 : IRModule := { m with memories := { m.memories with defs := d2 :: rest } }
    let envInst := instantiateModule envCollection []
    some { st := { st with envModule := some envInst },
           comp := comp, m := m2, memWrites := [] }

/-- RootResolver::setUpEmscripten. The collections are the external
intrinsic modules (emEnv, emAsm2wasm, emGlobal). The unguarded
`memories.imports[0]` / `tables.imports[0]` accesses are undefined
behaviour when the vectors are empty, modelled as `none`. -/
def setUpEmscripten (emEnvCollection emAsm2wasmCollection emGlobalCollection : ModInst)
    (st : ResolverState) (comp : Compartment) (m : IRModule) : Option SetUpResult :=
  match m.memories.imports, m.tables.imports with
  | mi :: mis, ti :: tis =>
    let mi2 : MemoryImport :=
      { mi with type := { mi.type with size :=
          { min := INITIAL_EMSCRIPTEN_PAGES, max := MAX_EMSCRIPTEN_PAGES } } }
    let ti2 : TableImport :=
      { ti with type := { ti.type with size :=
          { min := EMSCRIPTEN_MIN_TABLE_ELEMS, max := EMSCRIPTEN_MAX_TABLE_ELEMS } } }
    let m2 : IRModule :=
      { m with memories := { m.memories with imports := mi2 :: mis },
               tables := { m.tables with imports := ti2 :: tis } }
    let memoryAndComp := createMemory comp mi2.type "env.memory"
    let tableAndComp := createTable memoryAndComp.2 ti2.type "env.table"
    let extraEnvExports : ModInst :=
      [("memory", memoryAndComp.1), ("table", tableAndComp.1)]
    let emEnvInst := instantiateModule emEnvCollection extraEnvExports
    let emAsm2wasmInst := instantiateModule emAsm2wasmCollection []
    let emGlobalInst := instantiateModule emGlobalCollection []
    let memWrites : List (Nat × Nat) :=
      [ (MutableGlobals.address + MutableGlobals.offsetDynamictopPtr,
          EMSCRIPTEN_STACK_MAX % 2 ^ 32),
        (MutableGlobals.address + MutableGlobals.offsetStderr, ioStreamVMHandleStdErr),
        (MutableGlobals.address + MutableGlobals.offsetStdin, ioStreamVMHandleStdIn),
        (MutableGlobals.address + MutableGlobals.offsetStdout, ioStreamVMHandleStdOut) ]
    some { st := { st with emEnvModule := some emEnvInst,
                           emAsm2wasmModule := some emAsm2wasmInst,
                           emGlobalModule := some emGlobalInst },
           comp := tableAndComp.2, m := m2, memWrites := memWrites }
  | _, _ => none

/-- RootResolver::setUp: classify the toolchain by whether the module
declares any owned memory, set `isEmscripten`, and run the matching path. -/
def setUp (envCollection emEnvCollection emAsm2wasmCollection emGlobalCollection : ModInst)
    (st : ResolverState) (comp : Compartment) (m : IRModule) : Option SetUpResult :=
  if !m.memories.defs.isEmpty then
    setUpStandardToolchain envCollection { st with isEmscripten := false } comp m
  else
    setUpEmscripten emEnvCollection emAsm2wasmCollection emGlobalCollection
      { st with isEmscripten := true } comp m

/-- The diagnostics resolve emits through logger->error. -/
inductive LogMsg where
  | unrecognisedModule (moduleName : String)
  | typeMismatch (moduleName exportName : String) (actual expected : ExternType)
  | missingImport (moduleName exportName : String) (expected : ExternType)
deriving DecidableEq

/-- One resolve call's outcome: the returned bool, the final value of the
by-reference `resolved` argument, and the diagnostics logged. -/
structure ResolveResult where
  ok : Bool
  resolved : Option Obj
  logs : List LogMsg
deriving DecidableEq

/-- RootResolver::resolve. `isA` is WAVM's external runtime subtype check;
`resolvedIn` is the incoming value of the by-reference `resolved` argument
(left untouched on the unrecognised-module branch). A `none` result models
the undefined behaviour of looking an export up through a null module
pointer. -/
def resolve (isA : Obj → ExternType → Bool) (st : ResolverState)
    (moduleName exportName : String) (type : ExternType) (resolvedIn : Option Obj) :
    Option ResolveResult :=
  let step : Option (Option Obj × List LogMsg) :=
    if st.isEmscripten then
      if moduleName = "env" then
        (getInstanceExportP st.emEnvModule exportName).map (fun r => (r, []))
      else if moduleName = "asm2wasm" then
        (getInstanceExportP st.emAsm2wasmModule exportName).map (fun r => (r, []))
      else if moduleName = "global" ∨ moduleName = "global.Math" then
        (getInstanceExportP st.emGlobalModule exportName).map (fun r => (r, []))
      else
        some (resolvedIn, [LogMsg.unrecognisedModule moduleName])
    else
      (getInstanceExportP st.envModule exportName).map (fun r => (r, []))
  match step with
  | none => none
  | some (res, logs) =>
    match res with
    | some o =>
      if isA o type then
        some { ok := true, resolved := some o, logs := logs }
      else
        some { ok := false, resolved := some o,
               logs := logs ++ [LogMsg.typeMismatch moduleName exportName o.type type] }
    | none =>
      some { ok := false, resolved := none,
             logs := logs ++ [LogMsg.missingImport moduleName exportName type] }

/-- The module names the spec allows for each active path. -/
def allowedModuleName : Bool → String → Prop
  | true, mn => mn = "env" ∨ mn = "asm2wasm" ∨ mn = "global" ∨ mn = "global.Math"
  | false, mn => mn = "env"

/-- The module-instance pointer `resolve` consults for a given module
name (mirrors resolve's dispatch; `none` on an unrecognised legacy name). -/
def selectedCollection (st : ResolverState) (moduleName : String) : Option ModInst :=
  if st.isEmscripten then
    if moduleName = "env" then st.emEnvModule
    else if moduleName = "asm2wasm" then st.emAsm2wasmModule
    else if moduleName = "global" ∨ moduleName = "global.Math" then st.emGlobalModule
    else none
  else st.envModule

/-- Projection of the resolver state onto everything except the private
`user` string (the observable core). -/
def ResolverState.core (st : ResolverState) :
    Bool × Option ModInst × Option ModInst × Option ModInst × Option ModInst :=
  (st.isEmscripten, st.envModule, st.emEnvModule, st.emAsm2wasmModule, st.emGlobalModule)

/-! ### Helper equation lemmas (shared by several claim theorems) -/

/-- Result of the standard path when the module has a declared memory. -/
theorem setUpStandardToolchain_eq (envC : ModInst) (st : ResolverState)
    (comp : Compartment) (m : IRModule) (d : MemoryDef) (rest : List MemoryDef)
    (h : m.memories.defs = d :: rest) :
    setUpStandardToolchain envC st comp m =
      some { st := { st with envModule := some (instantiateModule envC []) },
             comp := comp,
             m := { m with memories := { m.memories with defs :=
                      { d with type := { d.type with size :=
                          { min := INITIAL_MEMORY_PAGES, max := MAX_MEMORY_PAGES } } } :: rest } },
             memWrites := [] } := by
  unfold setUpStandardToolchain
  rw [h]

/-- Result of the legacy path when the module has an imported memory and an
imported table. -/
theorem setUpEmscripten_eq (emEnvC emA2wC emGlobC : ModInst) (st : ResolverState)
    (comp : Compartment) (m : IRModule) (mi : MemoryImport) (mis : List MemoryImport)
    (ti : TableImport) (tis : List TableImport)
    (hmi : m.memories.imports = mi :: mis) (hti : m.tables.imports = ti :: tis) :
    setUpEmscripten emEnvC emA2wC emGlobC st comp m =
      some { st := { st with
               emEnvModule := some (instantiateModule emEnvC
                 [("memory", ⟨ExternType.mem
                     { min := INITIAL_EMSCRIPTEN_PAGES, max := MAX_EMSCRIPTEN_PAGES }⟩),
                  ("table", ⟨ExternType.tab
                     { min := EMSCRIPTEN_MIN_TABLE_ELEMS, max := EMSCRIPTEN_MAX_TABLE_ELEMS }⟩)]),
               emAsm2wasmModule := some (instantiateModule emA2wC []),
               emGlobalModule := some (instantiateModule emGlobC []) },
             comp := { comp with
               memories := comp.memories ++ [("env.memory",
                 { size := { min := INITIAL_EMSCRIPTEN_PAGES, max := MAX_EMSCRIPTEN_PAGES } })],
               tables := comp.tables ++ [("env.table",
                 { size := { min := EMSCRIPTEN_MIN_TABLE_ELEMS,
                             max := EMSCRIPTEN_MAX_TABLE_ELEMS } })] },
             m := { m with
               memories := { m.memories with imports :=
                 { mi with type := { mi.type with size :=
                     { min := INITIAL_EMSCRIPTEN_PAGES, max := MAX_EMSCRIPTEN_PAGES } } } :: mis },
               tables := { m.tables with imports :=
                 { ti with type := { ti.type with size :=
                     { min := EMSCRIPTEN_MIN_TABLE_ELEMS,
                       max := EMSCRIPTEN_MAX_TABLE_ELEMS } } } :: tis } },
             memWrites :=
               [ (MutableGlobals.address + MutableGlobals.offsetDynamictopPtr,
                   EMSCRIPTEN_STACK_MAX % 2 ^ 32),
                 (MutableGlobals.address + MutableGlobals.offsetStderr, ioStreamVMHandleStdErr),
                 (MutableGlobals.address + MutableGlobals.offsetStdin, ioStreamVMHandleStdIn),
                 (MutableGlobals.address + MutableGlobals.offsetStdout, ioStreamVMHandleStdOut) ] } := by
  unfold setUpEmscripten
  rw [hmi, hti]
  rfl

/-- `setUp` dispatches on emptiness of the declared-memory list. -/
theorem setUp_eq_dispatch (envC emEnvC emA2wC emGlobC : ModInst) (st : ResolverState)
    (comp : Compartment) (m : IRModule) :
    setUp envC emEnvC emA2wC emGlobC st comp m =
      if m.memories.defs = [] then
        setUpEmscripten emEnvC emA2wC emGlobC { st with isEmscripten := true } comp m
      else
        setUpStandardToolchain envC { st with isEmscripten := false } comp m := by
  unfold setUp
  cases h : m.memories.defs <;> simp [h]

/-! ### Claim theorems -/

/-- C3: `setUp` classifies a module as the standard toolchain
(isEmscripten = false) iff it declares at least one owned memory
definition, as the legacy toolchain (isEmscripten = true) otherwise, and
runs exactly the corresponding path. -/
theorem setUp_toolchain_classification
    (envC emEnvC emA2wC emGlobC : ModInst) (st : ResolverState)
    (comp : Compartment) (m : IRModule) :
    (m.memories.defs ≠ [] →
      setUp envC emEnvC emA2wC emGlobC st comp m =
        setUpStandardToolchain envC { st with isEmscripten := false } comp m) ∧
    (m.memories.defs = [] →
      setUp envC emEnvC emA2wC emGlobC st comp m =
        setUpEmscripten emEnvC emA2wC emGlobC { st with isEmscripten := true } comp m) ∧
    (∀ r, setUp envC emEnvC emA2wC emGlobC st comp m = some r →
      ((r.st.isEmscripten = false) ↔ m.memories.defs ≠ [])) := by
  refine ⟨fun hne => ?_, fun he => ?_, fun r hr => ?_⟩
  · rw [setUp_eq_dispatch, if_neg hne]
  · rw [setUp_eq_dispatch, if_pos he]
  · rw [setUp_eq_dispatch] at hr
    by_cases h : m.memories.defs = []
    · rw [if_pos h] at hr
      cases hmi : m.memories.imports with
      | nil => unfold setUpEmscripten at hr; rw [hmi] at hr; exact absurd hr (by simp)
      | cons mi mis =>
        cases hti : m.tables.imports with
        | nil => unfold setUpEmscripten at hr; rw [hmi, hti] at hr; exact absurd hr (by simp)
        | cons ti tis =>
          rw [setUpEmscripten_eq emEnvC emA2wC emGlobC _ comp m mi mis ti tis hmi hti] at hr
          obtain rfl : _ = r := Option.some_injective _ hr
          simp [h]
    · rw [if_neg h] at hr
      cases hd : m.memories.defs with
      | nil => exact absurd hd h
      | cons d rest =>
        rw [setUpStandardToolchain_eq envC _ comp m d rest hd] at hr
        obtain rfl : _ = r := Option.some_injective _ hr
        simp [h]

/-- C3 witness: a module with one declared memory takes the standard path
and ends with isEmscripten = false. -/
theorem setUp_toolchain_classification_witness :
    ((⟨⟨[⟨⟨⟨3, 5⟩⟩⟩], []⟩, ⟨[]⟩⟩ : IRModule).memories.defs ≠ [] ∧
      setUp [] [] [] [] initialState ⟨[], []⟩ ⟨⟨[⟨⟨⟨3, 5⟩⟩⟩], []⟩, ⟨[]⟩⟩ =
        setUpStandardToolchain [] { initialState with isEmscripten := false } ⟨[], []⟩
          ⟨⟨[⟨⟨⟨3, 5⟩⟩⟩], []⟩, ⟨[]⟩⟩) ∧
    (∀ r, setUp [] [] [] [] initialState ⟨[], []⟩ ⟨⟨[⟨⟨⟨3, 5⟩⟩⟩], []⟩, ⟨[]⟩⟩ = some r →
      ((r.st.isEmscripten = false) ↔
        (⟨⟨[⟨⟨⟨3, 5⟩⟩⟩], []⟩, ⟨[]⟩⟩ : IRModule).memories.defs ≠ [])) :=
  ⟨⟨by decide,
    (setUp_toolchain_classification [] [] [] [] initialState ⟨[], []⟩
      ⟨⟨[⟨⟨⟨3, 5⟩⟩⟩], []⟩, ⟨[]⟩⟩).1 (by decide)⟩,
   (setUp_toolchain_classification [] [] [] [] initialState ⟨[], []⟩
      ⟨⟨[⟨⟨⟨3, 5⟩⟩⟩], []⟩, ⟨[]⟩⟩).2.2⟩

/-- C4: on the standard path, setUp rewrites the first declared memory's
limits to min = 15 × 16 = 240 pages and max = 1024 × 16 = 16384 pages,
whatever the module declared. -/
theorem setUpStandard_memory_limits
    (envC emEnvC emA2wC emGlobC : ModInst) (st : ResolverState)
    (comp : Compartment) (m : IRModule) (r : SetUpResult)
    (hstd : m.memories.defs ≠ [])
    (h : setUp envC emEnvC emA2wC emGlobC st comp m = some r) :
    (r.m.memories.defs.head?).map (fun d => d.type.size) =
      some { min := 15 * 16, max := 1024 * 16 } ∧
    INITIAL_MEMORY_PAGES = 15 * 16 ∧ MAX_MEMORY_PAGES = 1024 * 16 ∧
    15 * 16 = 240 ∧ 1024 * 16 = 16384 ∧ numBytesPerPage = 65536 := by
  rw [setUp_eq_dispatch, if_neg hstd] at h
  cases hd : m.memories.defs with
  | nil => exact absurd hd hstd
  | cons d rest =>
    rw [setUpStandardToolchain_eq envC _ comp m d rest hd] at h
    obtain rfl : _ = r := Option.some_injective _ h
    refine ⟨?_, by decide, by decide, by decide, by decide, by decide⟩
    simp [INITIAL_MEMORY_PAGES, MAX_MEMORY_PAGES, ONE_MB_PAGES, ONE_GB_PAGES]

/-- C4 witness: a concrete module declaring min 3, max 5 leaves setUp with
memory limits 240/16384. -/
theorem setUpStandard_memory_limits_witness :
    ((⟨⟨[⟨⟨⟨3, 5⟩⟩⟩], []⟩, ⟨[]⟩⟩ : IRModule).memories.defs ≠ []) ∧
    ∃ r, setUp [] [] [] [] initialState ⟨[], []⟩ ⟨⟨[⟨⟨⟨3, 5⟩⟩⟩], []⟩, ⟨[]⟩⟩ = some r ∧
      (r.m.memories.defs.head?).map (fun d => d.type.size) =
        some { min := 15 * 16, max := 1024 * 16 } :=
  ⟨by decide,
   setUp [] [] [] [] initialState ⟨[], []⟩ ⟨⟨[⟨⟨⟨3, 5⟩⟩⟩], []⟩, ⟨[]⟩⟩ |>.get (by decide),
   by decide,
   (setUpStandard_memory_limits [] [] [] [] initialState ⟨[], []⟩ ⟨⟨[⟨⟨⟨3, 5⟩⟩⟩], []⟩, ⟨[]⟩⟩
     _ (by decide) (by decide)).1⟩

/-- C5: on the legacy path, setUp rewrites the first imported memory's
limits to min = 1024 × 16 and max = 2048 × 1024 × 16 pages and the first
imported table's limits to 40000000 / 60000000 elements, and the memory
and table objects are created in the compartment with exactly these
rewritten types. -/
theorem setUpEmscripten_limits
    (envC emEnvC emA2wC emGlobC : ModInst) (st : ResolverState)
    (comp : Compartment) (m : IRModule) (r : SetUpResult)
    (hleg : m.memories.defs = [])
    (h : setUp envC emEnvC emA2wC emGlobC st comp m = some r) :
    (r.m.memories.imports.head?).map (fun i => i.type.size) =
      some { min := 1024 * 16, max := 2048 * 1024 * 16 } ∧
    (r.m.tables.imports.head?).map (fun i => i.type.size) =
      some { min := 40000000, max := 60000000 } ∧
    r.comp.memories = comp.memories ++
      [("env.memory", { size := { min := 1024 * 16, max := 2048 * 1024 * 16 } })] ∧
    r.comp.tables = comp.tables ++
      [("env.table", { size := { min := 40000000, max := 60000000 } })] ∧
    INITIAL_EMSCRIPTEN_PAGES = 1024 * 16 ∧ MAX_EMSCRIPTEN_PAGES = 2048 * 1024 * 16 ∧
    EMSCRIPTEN_MIN_TABLE_ELEMS = 40000000 ∧ EMSCRIPTEN_MAX_TABLE_ELEMS = 60000000 := by
  rw [setUp_eq_dispatch, if_pos hleg] at h
  cases hmi : m.memories.imports with
  | nil => unfold setUpEmscripten at h; rw [hmi] at h; exact absurd h (by simp)
  | cons mi mis =>
    cases hti : m.tables.imports with
    | nil => unfold setUpEmscripten at h; rw [hmi, hti] at h; exact absurd h (by simp)
    | cons ti tis =>
      rw [setUpEmscripten_eq emEnvC emA2wC emGlobC _ comp m mi mis ti tis hmi hti] at h
      obtain rfl : _ = r := Option.some_injective _ h
      refine ⟨?_, ?_, ?_, ?_, by decide, by decide, by decide, by decide⟩ <;>
        simp [INITIAL_EMSCRIPTEN_PAGES, MAX_EMSCRIPTEN_PAGES, ONE_MB_PAGES, ONE_GB_PAGES,
              EMSCRIPTEN_MIN_TABLE_ELEMS, EMSCRIPTEN_MAX_TABLE_ELEMS]

/-- C5 witness: a concrete legacy module with declared import limits 1/2
and 3/4 ends with the fixed legacy limits and matching created objects. -/
theorem setUpEmscripten_limits_witness :
    ((⟨⟨[], [⟨⟨⟨1, 2⟩⟩⟩]⟩, ⟨[⟨⟨⟨3, 4⟩⟩⟩]⟩⟩ : IRModule).memories.defs = []) ∧
    ∃ r, setUp [] [] [] [] initialState ⟨[], []⟩ ⟨⟨[], [⟨⟨⟨1, 2⟩⟩⟩]⟩, ⟨[⟨⟨⟨3, 4⟩⟩⟩]⟩⟩ = some r ∧
      (r.m.memories.imports.head?).map (fun i => i.type.size) =
        some { min := 1024 * 16, max := 2048 * 1024 * 16 } ∧
      r.comp.tables = [("env.table", { size := { min := 40000000, max := 60000000 } })] :=
  ⟨by decide,
   setUp [] [] [] [] initialState ⟨[], []⟩ ⟨⟨[], [⟨⟨⟨1, 2⟩⟩⟩]⟩, ⟨[⟨⟨⟨3, 4⟩⟩⟩]⟩⟩ |>.get (by decide),
   by decide,
   (setUpEmscripten_limits [] [] [] [] initialState ⟨[], []⟩ ⟨⟨[], [⟨⟨⟨1, 2⟩⟩⟩]⟩, ⟨[⟨⟨⟨3, 4⟩⟩⟩]⟩⟩
     _ (by decide) (by decide)).1,
   (setUpEmscripten_limits [] [] [] [] initialState ⟨[], []⟩ ⟨⟨[], [⟨⟨⟨1, 2⟩⟩⟩]⟩, ⟨[⟨⟨⟨3, 4⟩⟩⟩]⟩⟩
     _ (by decide) (by decide)).2.2.2.1⟩

/-- C6: on the legacy path the MutableGlobals block at byte offset
63 × 65536 receives DYNAMICTOP_PTR = EMSCRIPTEN_STACK_MAX (256 pages in
bytes, unchanged by the narrowing U32 store) and the stream handles
stderr = 1, stdin = 2, stdout = 3 at their field offsets; the whole block
lies below the configured minimum memory size. -/
theorem setUpEmscripten_mutableGlobals
    (envC emEnvC emA2wC emGlobC : ModInst) (st : ResolverState)
    (comp : Compartment) (m : IRModule) (r : SetUpResult)
    (hleg : m.memories.defs = [])
    (h : setUp envC emEnvC emA2wC emGlobC st comp m = some r) :
    r.memWrites =
      [ (63 * 65536 + 0, 256 * 65536), (63 * 65536 + 16, 1),
        (63 * 65536 + 20, 2), (63 * 65536 + 24, 3) ] ∧
    EMSCRIPTEN_STACK_MAX = 256 * numBytesPerPage ∧
    EMSCRIPTEN_STACK_MAX % 2 ^ 32 = EMSCRIPTEN_STACK_MAX ∧
    MutableGlobals.address = 63 * 65536 ∧
    MutableGlobals.address + MutableGlobals.byteSize <
      INITIAL_EMSCRIPTEN_PAGES * numBytesPerPage := by
  rw [setUp_eq_dispatch, if_pos hleg] at h
  cases hmi : m.memories.imports with
  | nil => unfold setUpEmscripten at h; rw [hmi] at h; exact absurd h (by simp)
  | cons mi mis =>
    cases hti : m.tables.imports with
    | nil => unfold setUpEmscripten at h; rw [hmi, hti] at h; exact absurd h (by simp)
    | cons ti tis =>
      rw [setUpEmscripten_eq emEnvC emA2wC emGlobC _ comp m mi mis ti tis hmi hti] at h
      obtain rfl : _ = r := Option.some_injective _ h
      exact ⟨by rfl, by decide, by decide, by decide, by decide⟩

/-- C6 witness: the concrete legacy module's setUp performs exactly the
four documented writes. -/
theorem setUpEmscripten_mutableGlobals_witness :
    ((⟨⟨[], [⟨⟨⟨1, 2⟩⟩⟩]⟩, ⟨[⟨⟨⟨3, 4⟩⟩⟩]⟩⟩ : IRModule).memories.defs = []) ∧
    ∃ r, setUp [] [] [] [] initialState ⟨[], []⟩ ⟨⟨[], [⟨⟨⟨1, 2⟩⟩⟩]⟩, ⟨[⟨⟨⟨3, 4⟩⟩⟩]⟩⟩ = some r ∧
      r.memWrites =
        [ (63 * 65536 + 0, 256 * 65536), (63 * 65536 + 16, 1),
          (63 * 65536 + 20, 2), (63 * 65536 + 24, 3) ] :=
  ⟨by decide,
   setUp [] [] [] [] initialState ⟨[], []⟩ ⟨⟨[], [⟨⟨⟨1, 2⟩⟩⟩]⟩, ⟨[⟨⟨⟨3, 4⟩⟩⟩]⟩⟩ |>.get (by decide),
   by decide,
   (setUpEmscripten_mutableGlobals [] [] [] [] initialState ⟨[], []⟩
     ⟨⟨[], [⟨⟨⟨1, 2⟩⟩⟩]⟩, ⟨[⟨⟨⟨3, 4⟩⟩⟩]⟩⟩ _ (by decide) (by decide)).1⟩

/-- C2 (code evidence): a module with no declared memories is classified
legacy, and when it also lacks an imported memory and/or an imported
table, setUp runs straight into the unguarded `memories.imports[0]` /
`tables.imports[0]` accesses — undefined behaviour, modelled as `none`.
No MissingRequiredSection diagnostic is produced anywhere on this path. -/
theorem setUp_legacy_missing_sections_crash :
    setUp [] [] [] [] initialState ⟨[], []⟩ ⟨⟨[], []⟩, ⟨[]⟩⟩ = none ∧
    setUp [] [] [] [] initialState ⟨[], []⟩ ⟨⟨[], [⟨⟨⟨1, 2⟩⟩⟩]⟩, ⟨[]⟩⟩ = none ∧
    setUp [] [] [] [] initialState ⟨[], []⟩ ⟨⟨[], []⟩, ⟨[⟨⟨⟨3, 4⟩⟩⟩]⟩⟩ = none := by
  exact ⟨by decide, by decide, by decide⟩

/-- C8: cleanUp empties all four held module-instance pointers, a second
cleanUp changes nothing (idempotence), and cleanUp on the freshly
constructed state is a safe no-op. -/
theorem cleanUp_idempotent_safe (st : ResolverState) :
    (cleanUp st).envModule = none ∧ (cleanUp st).emEnvModule = none ∧
    (cleanUp st).emAsm2wasmModule = none ∧ (cleanUp st).emGlobalModule = none ∧
    cleanUp (cleanUp st) = cleanUp st ∧ cleanUp initialState = initialState :=
  ⟨rfl, rfl, rfl, rfl, rfl, rfl⟩

/-- C1 counterexample: with the standard toolchain active
(isEmscripten = false), resolve called with moduleName = "wasi_unstable"
(≠ "env") still looks the export up in the env collection and returns
true — it does not fail with an unrecognised-module report. -/
theorem resolve_standard_foreign_module_succeeds_cex :
    resolve (fun o t => decide (o.type = t))
      { isEmscripten := false,
        envModule := some [("memcpy", { type := ExternType.func 0 })],
        emEnvModule := none, emAsm2wasmModule := none, emGlobalModule := none,
        user := "" }
      "wasi_unstable" "memcpy" (ExternType.func 0) none =
      some { ok := true, resolved := some { type := ExternType.func 0 }, logs := [] } := by
  decide

/-- C1 (amended): under the legacy path a moduleName outside
{env, asm2wasm, global, global.Math} triggers no export lookup, an
unrecognised-module report, and — with the incoming resolved pointer
null — a false return (with an additional missing-import report); under
the standard path moduleName is never inspected for dispatch: the
returned flag and resolved object are those of an env-collection lookup
whatever moduleName is. -/
theorem resolve_module_name_dispatch
    (isA : Obj → ExternType → Bool) (st : ResolverState)
    (moduleName exportName : String) (type : ExternType) (resolvedIn : Option Obj) :
    (st.isEmscripten = true →
      moduleName ∉ (["env", "asm2wasm", "global", "global.Math"] : List String) →
      resolve isA st moduleName exportName type none =
        some { ok := false, resolved := none,
               logs := [LogMsg.unrecognisedModule moduleName,
                        LogMsg.missingImport moduleName exportName type] }) ∧
    (st.isEmscripten = false →
      (resolve isA st moduleName exportName type resolvedIn).map
          (fun r => (r.ok, r.resolved)) =
        (resolve isA st "env" exportName type resolvedIn).map
          (fun r => (r.ok, r.resolved))) := by
  constructor
  · intro hem hmn
    simp only [List.mem_cons, List.not_mem_nil, or_false, not_or] at hmn
    obtain ⟨h1, h2, h3, h4⟩ := hmn
    simp [resolve, hem, h1, h2, h3, h4]
  · intro hem
    cases hE : getInstanceExportP st.envModule exportName with
    | none => simp [resolve, hem, hE]
    | some res =>
      cases res with
      | none => simp [resolve, hem, hE]
      | some o => by_cases hA : isA o type <;> simp [resolve, hem, hE, hA]

/-- C1 witness for the amended statement: a legacy resolver given the
unknown module name "wasi" reports it unrecognised and fails. -/
theorem resolve_module_name_dispatch_witness :
    resolve (fun o t => decide (o.type = t))
      { isEmscripten := true, envModule := none, emEnvModule := some [],
        emAsm2wasmModule := some [], emGlobalModule := some [], user := "" }
      "wasi" "getpid" (ExternType.func 7) none =
      some { ok := false, resolved := none,
             logs := [LogMsg.unrecognisedModule "wasi",
                      LogMsg.missingImport "wasi" "getpid" (ExternType.func 7)] } :=
  (resolve_module_name_dispatch (fun o t => decide (o.type = t))
    { isEmscripten := true, envModule := none, emEnvModule := some [],
      emAsm2wasmModule := some [], emGlobalModule := some [], user := "" }
    "wasi" "getpid" (ExternType.func 7) none).1 rfl (by decide)

/-- C7: for an allowed moduleName whose selected collection pointer is
set, resolve returns true iff the collection exports the name with a
type-compatible object; an incompatible export yields a TypeMismatch
report carrying both the actual and the expected type; an absent export
yields a MissingImport report carrying the module.export pair and the
expected type. -/
theorem resolve_allowed_lookup_spec
    (isA : Obj → ExternType → Bool) (st : ResolverState)
    (moduleName exportName : String) (type : ExternType) (resolvedIn : Option Obj)
    (inst : ModInst)
    (hallow : allowedModuleName st.isEmscripten moduleName)
    (hinst : selectedCollection st moduleName = some inst) :
    ((resolve isA st moduleName exportName type resolvedIn).map ResolveResult.ok =
        some true ↔
      ∃ o, getInstanceExport inst exportName = some o ∧ isA o type = true) ∧
    (∀ o, getInstanceExport inst exportName = some o → isA o type = false →
      resolve isA st moduleName exportName type resolvedIn =
        some { ok := false, resolved := some o,
               logs := [LogMsg.typeMismatch moduleName exportName o.type type] }) ∧
    (getInstanceExport inst exportName = none →
      resolve isA st moduleName exportName type resolvedIn =
        some { ok := false, resolved := none,
               logs := [LogMsg.missingImport moduleName exportName type] }) := by
  have hstep : resolve isA st moduleName exportName type resolvedIn =
      (match getInstanceExport inst exportName with
       | some o =>
         if isA o type then
           some { ok := true, resolved := some o, logs := [] }
         else
           some { ok := false, resolved := some o,
                  logs := [LogMsg.typeMismatch moduleName exportName o.type type] }
       | none =>
         some { ok := false, resolved := none,
                logs := [LogMsg.missingImport moduleName exportName type] }) := by
    cases hem : st.isEmscripten with
    | false =>
      rw [hem] at hallow
      simp only [allowedModuleName] at hallow
      simp only [selectedCollection, hem, Bool.false_eq_true, if_false] at hinst
      cases hE : getInstanceExport inst exportName with
      | none => simp [resolve, hem, hinst, getInstanceExportP, hE]
      | some o => by_cases hA : isA o type <;>
          simp [resolve, hem, hinst, getInstanceExportP, hE, hA]
    | true =>
      rw [hem] at hallow
      simp only [allowedModuleName] at hallow
      rcases hallow with hmn | hmn | hmn | hmn <;> subst hmn <;>
        simp [selectedCollection, hem] at hinst <;>
        (cases hE : getInstanceExport inst exportName with
         | none => simp [resolve, hem, hinst, getInstanceExportP, hE]
         | some o => by_cases hA : isA o type <;>
             simp [resolve, hem, hinst, getInstanceExportP, hE, hA])
  refine ⟨?_, ?_, ?_⟩
  · rw [hstep]
    cases hE : getInstanceExport inst exportName with
    | none => simp
    | some o => by_cases hA : isA o type <;> simp [hA]
  · intro o hEo hAf
    rw [hstep, hEo]
    simp [hAf]
  · intro hE
    rw [hstep, hE]

/-- C7 witness: a standard-path resolver whose env collection exports "g"
as a data global rejects importing it at a function type, reporting both
types. -/
theorem resolve_allowed_lookup_spec_witness :
    resolve (fun o t => decide (o.type = t))
      { isEmscripten := false,
        envModule := some [("g", { type := ExternType.glob 2 })],
        emEnvModule := none, emAsm2wasmModule := none, emGlobalModule := none,
        user := "" }
      "env" "g" (ExternType.func 1) none =
      some { ok := false, resolved := some { type := ExternType.glob 2 },
             logs := [LogMsg.typeMismatch "env" "g"
                        (ExternType.glob 2) (ExternType.func 1)] } :=
  (resolve_allowed_lookup_spec (fun o t => decide (o.type = t))
    { isEmscripten := false,
      envModule := some [("g", { type := ExternType.glob 2 })],
      emEnvModule := none, emAsm2wasmModule := none, emGlobalModule := none,
      user := "" }
    "env" "g" (ExternType.func 1) none
    [("g", { type := ExternType.glob 2 })] rfl rfl).2.1
    { type := ExternType.glob 2 } (by decide) (by decide)

/-- C9: the toolchain flag is never modified after setUp: cleanUp and
setUser preserve isEmscripten, and the outcome of resolve is fully
determined by the flag together with the four module pointers — the
dispatch reads nothing else of the state. -/
theorem isEmscripten_readonly_determines_resolve
    (isA : Obj → ExternType → Bool) (st st2 : ResolverState) (u : String)
    (moduleName exportName : String) (type : ExternType) (resolvedIn : Option Obj)
    (hflag : st.isEmscripten = st2.isEmscripten)
    (henv : st.envModule = st2.envModule)
    (h1 : st.emEnvModule = st2.emEnvModule)
    (h2 : st.emAsm2wasmModule = st2.emAsm2wasmModule)
    (h3 : st.emGlobalModule = st2.emGlobalModule) :
    (cleanUp st).isEmscripten = st.isEmscripten ∧
    (setUser st u).isEmscripten = st.isEmscripten ∧
    resolve isA st moduleName exportName type resolvedIn =
      resolve isA st2 moduleName exportName type resolvedIn := by
  refine ⟨rfl, rfl, ?_⟩
  unfold resolve
  rw [hflag, henv, h1, h2, h3]

/-- C9 witness: two legacy resolver states differing only in the user
string resolve identically, and cleanUp keeps the flag. -/
theorem isEmscripten_readonly_determines_resolve_witness :
    resolve (fun o t => decide (o.type = t))
      { isEmscripten := true, envModule := none, emEnvModule := some [],
        emAsm2wasmModule := some [], emGlobalModule := some [], user := "alice" }
      "env" "f" (ExternType.func 0) none =
      resolve (fun o t => decide (o.type = t))
      { isEmscripten := true, envModule := none, emEnvModule := some [],
        emAsm2wasmModule := some [], emGlobalModule := some [], user := "bob" }
      "env" "f" (ExternType.func 0) none :=
  (isEmscripten_readonly_determines_resolve (fun o t => decide (o.type = t))
    { isEmscripten := true, envModule := none, emEnvModule := some [],
      emAsm2wasmModule := some [], emGlobalModule := some [], user := "alice" }
    { isEmscripten := true, envModule := none, emEnvModule := some [],
      emAsm2wasmModule := some [], emGlobalModule := some [], user := "bob" }
    "u" "env" "f" (ExternType.func 0) none rfl rfl rfl rfl rfl).2.2

/-- setUp's observable output (state core, compartment, module, memory
writes) does not depend on the fields outside the state core. -/
theorem setUp_obs_congr (envC emEnvC emA2wC emGlobC : ModInst)
    (st st2 : ResolverState) (comp : Compartment) (m : IRModule)
    (henv : st.envModule = st2.envModule)
    (h1 : st.emEnvModule = st2.emEnvModule)
    (h2 : st.emAsm2wasmModule = st2.emAsm2wasmModule)
    (h3 : st.emGlobalModule = st2.emGlobalModule) :
    (setUp envC emEnvC emA2wC emGlobC st comp m).map
        (fun r => (r.st.core, r.comp, r.m, r.memWrites)) =
      (setUp envC emEnvC emA2wC emGlobC st2 comp m).map
        (fun r => (r.st.core, r.comp, r.m, r.memWrites)) := by
  rw [setUp_eq_dispatch, setUp_eq_dispatch]
  by_cases h : m.memories.defs = []
  · rw [if_pos h, if_pos h]
    cases hmi : m.memories.imports with
    | nil =>
      cases hti : m.tables.imports with
      | nil => unfold setUpEmscripten; rw [hmi, hti]
      | cons ti tis => unfold setUpEmscripten; rw [hmi, hti]
    | cons mi mis =>
      cases hti : m.tables.imports with
      | nil => unfold setUpEmscripten; rw [hmi, hti]
      | cons ti tis =>
        rw [setUpEmscripten_eq emEnvC emA2wC emGlobC
              { st with isEmscripten := true } comp m mi mis ti tis hmi hti,
            setUpEmscripten_eq emEnvC emA2wC emGlobC
              { st2 with isEmscripten := true } comp m mi mis ti tis hmi hti]
        simp [ResolverState.core, henv]
  · rw [if_neg h, if_neg h]
    cases hd : m.memories.defs with
    | nil => exact absurd hd h
    | cons d rest =>
      rw [setUpStandardToolchain_eq envC
            { st with isEmscripten := false } comp m d rest hd,
          setUpStandardToolchain_eq envC
            { st2 with isEmscripten := false } comp m d rest hd]
      simp [ResolverState.core, h1, h2, h3]

/-- C10: the user string set via setUser has no observable effect: for any
state, resolve returns the identical outcome, cleanUp the identical
observable core, and setUp the identical observable core, compartment,
rewritten module and memory writes, whichever user string was set — or
none at all. -/
theorem setUser_no_observable_effect
    (isA : Obj → ExternType → Bool) (st : ResolverState) (u1 u2 : String)
    (envC emEnvC emA2wC emGlobC : ModInst) (comp : Compartment) (m : IRModule)
    (moduleName exportName : String) (type : ExternType) (resolvedIn : Option Obj) :
    (resolve isA (setUser st u1) moduleName exportName type resolvedIn =
       resolve isA (setUser st u2) moduleName exportName type resolvedIn ∧
     resolve isA (setUser st u1) moduleName exportName type resolvedIn =
       resolve isA st moduleName exportName type resolvedIn) ∧
    ((cleanUp (setUser st u1)).core = (cleanUp (setUser st u2)).core ∧
     (cleanUp (setUser st u1)).core = (cleanUp st).core) ∧
    ((setUp envC emEnvC emA2wC emGlobC (setUser st u1) comp m).map
        (fun r => (r.st.core, r.comp, r.m, r.memWrites)) =
      (setUp envC emEnvC emA2wC emGlobC (setUser st u2) comp m).map
        (fun r => (r.st.core, r.comp, r.m, r.memWrites)) ∧
     (setUp envC emEnvC emA2wC emGlobC (setUser st u1) comp m).map
        (fun r => (r.st.core, r.comp, r.m, r.memWrites)) =
      (setUp envC emEnvC emA2wC emGlobC st comp m).map
        (fun r => (r.st.core, r.comp, r.m, r.memWrites))) :=
  ⟨⟨rfl, rfl⟩, ⟨rfl, rfl⟩,
   setUp_obs_congr envC emEnvC emA2wC emGlobC (setUser st u1) (setUser st u2)
     comp m rfl rfl rfl rfl,
   setUp_obs_congr envC emEnvC emA2wC emGlobC (setUser st u1) st
     comp m rfl rfl rfl rfl⟩

end RootResolverModel
